import Mathlib

/-!
Verification of the expiry classification and alerting engine of the
smart-fridge inventory system.

The development shallowly embeds the tracker (`check_expiry_status`,
`generate_alerts`, `get_items_for_recipe`, `calculate_waste_statistics`),
the store queries it relies on (`get_all_items`, `get_expiring_items`,
`update_item_status`), the alert-threshold configuration, and the
rule-based recipe fallback (`generate_fallback_recipe`).

Modelling conventions:
* Timestamps (`datetime.now()`, the `storage_date` column) are integers
  counting seconds; `DATE` column values (`expiry_date`) are integers
  counting whole days, so the timestamp of the date's midnight is
  `day * 86400`.
* `(pandas.Timestamp - datetime).days` floors the difference toward
  negative infinity (pandas `Timedelta` components are normalised the
  same way as `datetime.timedelta`, e.g. minus one hour is
  `-1 days +23:00:00`); this is `Int.fdiv _ 86400` on the difference in
  seconds.
* The SQL store is a list of rows; `ORDER BY expiry_date ASC` (SQLite:
  NULLs first, tie order unspecified) is modelled by an insertion sort
  on the expiry key; `WHERE` clauses are list filters; `UPDATE ... WHERE
  id = ?` maps over all rows with the given id.
* Rows carry the columns the engine reads; unread columns (unit,
  location, barcode, image path, confidence, notes, timestamps the core
  never consults) are omitted.
* Logging and desktop/email/SMS notification delivery are external I/O
  and are not modelled; alert persistence itself is.
-/

/-- Alert-threshold configuration (`config.ALERT_THRESHOLDS`). -/
structure Thresholds where
  critical : Int
  warning : Int
  normal : Int
deriving Repr, DecidableEq

/-- `config.ALERT_THRESHOLDS = {'critical': 1, 'warning': 3, 'normal': 7}`. -/
def ALERT_THRESHOLDS : Thresholds := { critical := 1, warning := 3, normal := 7 }

/-- `config.MAX_INGREDIENTS_FOR_RECIPE = 10`. -/
def MAX_INGREDIENTS_FOR_RECIPE : Nat := 10

/-- Urgency tier of an item (the four groups of `check_expiry_status`). -/
inductive Tier where
  | critical
  | warning
  | normal
  | fresh
deriving Repr, DecidableEq

/-- A row of the `food_items` table, restricted to the columns the
expiry engine reads.  `expiry_date` is a day number (`DATE` column,
`none` = SQL NULL); `storage_date` is a timestamp in seconds. -/
structure FoodItem where
  id : Nat
  name : String
  category : String
  quantity : Int
  storage_date : Int
  expiry_date : Option Int
  status : String
deriving Repr, DecidableEq

/-- Calendar day of a timestamp (what `strftime('%Y-%m-%d')` / SQLite
`date()` keep of it). -/
def dayOf (t : Int) : Int := Int.fdiv t 86400

/-- `.days` of a pandas `Timedelta` of `delta` seconds: whole days,
floored toward negative infinity. -/
def pandasDays (delta : Int) : Int := Int.fdiv delta 86400

/-- `(pd.to_datetime(expiry_date) - now).days` for a stored `DATE`
value: the parsed date is midnight of day `e`. -/
def daysUntilExpiry (now : Int) (e : Int) : Int := pandasDays (e * 86400 - now)

/-- Comparison on the `expiry_date` column used by
`ORDER BY expiry_date ASC` (SQLite sorts NULLs first). -/
def expLe (a b : FoodItem) : Bool :=
  match a.expiry_date, b.expiry_date with
  | none, _ => true
  | some _, none => false
  | some x, some y => x ≤ y

/-- Ordered insertion into a list sorted by `expLe`. -/
def insertItem (x : FoodItem) : List FoodItem → List FoodItem
  | [] => [x]
  | y :: ys => if expLe x y then x :: y :: ys else y :: insertItem x ys

/-- The row order produced by `ORDER BY expiry_date ASC` (SQL leaves the
order of equal keys unspecified; insertion sort fixes one such order). -/
def sortItems : List FoodItem → List FoodItem
  | [] => []
  | x :: xs => insertItem x (sortItems xs)

/-- `FridgeDatabase.get_all_items()` with the default
`include_consumed=False`: all rows with `status != 'consumed'`,
`ORDER BY expiry_date ASC`. -/
def get_all_items (store : List FoodItem) : List FoodItem :=
  sortItems (store.filter (fun it => it.status ≠ "consumed"))

/-- `FridgeDatabase.update_item_status`: `UPDATE food_items SET status =
? WHERE id = ?`. -/
def update_item_status (store : List FoodItem) (item_id : Nat) (status : String) :
    List FoodItem :=
  store.map (fun it => if it.id = item_id then { it with status := status } else it)

/-- The per-item summary `check_expiry_status` builds (`item_info`). -/
structure ItemInfo where
  id : Nat
  name : String
  category : String
  expiry_date : Int
  days_remaining : Int
deriving Repr, DecidableEq

/-- The `status_groups` dictionary of `check_expiry_status`. -/
@[ext] structure StatusGroups where
  critical : List ItemInfo
  warning : List ItemInfo
  normal : List ItemInfo
  fresh : List ItemInfo
deriving Repr, DecidableEq

/-- The `item_info` dictionary built for an item with a present expiry
date `e`. -/
def infoOf (now : Int) (it : FoodItem) (e : Int) : ItemInfo :=
  { id := it.id, name := it.name, category := it.category,
    expiry_date := e, days_remaining := daysUntilExpiry now e }

/-- Processing of one fetched row inside `check_expiry_status`'s loop:
the `if/elif` chain appends the summary to one group and, in the
`days_until_expiry < 0` branch only, updates the stored status to
`'expired'`. -/
def checkItem (t : Thresholds) (now : Int) (acc : StatusGroups × List FoodItem)
    (it : FoodItem) : StatusGroups × List FoodItem :=
  match it.expiry_date with
  | none => acc
  | some e =>
    let d := daysUntilExpiry now e
    let info := infoOf now it e
    if d < 0 then
      ({ acc.1 with critical := acc.1.critical ++ [info] },
        update_item_status acc.2 it.id "expired")
    else if d ≤ t.critical then
      ({ acc.1 with critical := acc.1.critical ++ [info] }, acc.2)
    else if d ≤ t.warning then
      ({ acc.1 with warning := acc.1.warning ++ [info] }, acc.2)
    else if d ≤ t.normal then
      ({ acc.1 with normal := acc.1.normal ++ [info] }, acc.2)
    else
      ({ acc.1 with fresh := acc.1.fresh ++ [info] }, acc.2)

/-- `ExpiryTracker.check_expiry_status`: fetch all non-consumed rows,
classify each (skipping missing expiry dates), and return the groups
together with the item store as the loop's status updates leave it.
The source's early return on an empty fetch yields the same empty
groups the fold does. -/
def check_expiry_status (t : Thresholds) (now : Int) (store : List FoodItem) :
    StatusGroups × List FoodItem :=
  (get_all_items store).foldl (checkItem t now) (⟨[], [], [], []⟩, store)

/-- The pure tier function implemented by the loop's `if/elif` chain. -/
def tierOf (t : Thresholds) (d : Int) : Tier :=
  if d < 0 then .critical
  else if d ≤ t.critical then .critical
  else if d ≤ t.warning then .warning
  else if d ≤ t.normal then .normal
  else .fresh

/-- Group selector for `StatusGroups`. -/
def groupOf (g : StatusGroups) : Tier → List ItemInfo
  | .critical => g.critical
  | .warning => g.warning
  | .normal => g.normal
  | .fresh => g.fresh

/-- A row of the `alerts` table as `create_alert` inserts it. -/
structure Alert where
  food_item_id : Nat
  alert_type : String
  alert_level : String
  message : String
deriving Repr, DecidableEq

/-- The message template of the critical loop in `generate_alerts`. -/
def criticalMessage (i : ItemInfo) : String :=
  if i.days_remaining < 0 then
    i.name ++ " has EXPIRED " ++ toString i.days_remaining.natAbs ++ " day(s) ago!"
  else if i.days_remaining = 0 then
    i.name ++ " expires TODAY!"
  else
    i.name ++ " expires in " ++ toString i.days_remaining ++ " day(s)!"

/-- The message template of the warning and normal loops in
`generate_alerts`. -/
def expiresInMessage (i : ItemInfo) : String :=
  i.name ++ " expires in " ++ toString i.days_remaining ++ " day(s)"

/-- The alert rows one `generate_alerts` call inserts, in insertion
order: one per critical item, then one per warning item, then one per
normal item. -/
def alertsOfGroups (g : StatusGroups) : List Alert :=
  g.critical.map (fun i =>
    { food_item_id := i.id, alert_type := "expiry", alert_level := "critical",
      message := criticalMessage i })
  ++ g.warning.map (fun i =>
    { food_item_id := i.id, alert_type := "expiry", alert_level := "warning",
      message := expiresInMessage i })
  ++ g.normal.map (fun i =>
    { food_item_id := i.id, alert_type := "expiry", alert_level := "normal",
      message := expiresInMessage i })

/-- The two tables the engine touches. -/
structure DB where
  items : List FoodItem
  alerts : List Alert
deriving Repr, DecidableEq

/-- `ExpiryTracker.generate_alerts`: re-run the classification (with its
status-update side effect), then insert one alert row per critical,
warning and normal item.  Desktop notification delivery is external I/O
and not modelled. -/
def generate_alerts (t : Thresholds) (now : Int) (db : DB) : DB :=
  let r := check_expiry_status t now db.items
  { items := r.2, alerts := db.alerts ++ alertsOfGroups r.1 }

/-- `FridgeDatabase.get_expiring_items(days_threshold)`: rows with
`expiry_date <= date(now + days_threshold days)` (an ISO date-string
comparison, equivalent to comparing day numbers; NULL expiry dates
compare to NULL and are excluded) and `status = 'fresh'`, ordered by
expiry ascending. -/
def get_expiring_items (now : Int) (days_threshold : Int) (store : List FoodItem) :
    List FoodItem :=
  let threshold_date := dayOf (now + days_threshold * 86400)
  sortItems (store.filter (fun it =>
    match it.expiry_date with
    | none => false
    | some e => decide (e ≤ threshold_date ∧ it.status = "fresh")))

/-- The per-item dictionary `get_items_for_recipe` returns. -/
structure RecipeItem where
  id : Nat
  name : String
  category : String
  quantity : Int
  days_remaining : Int
deriving Repr, DecidableEq

/-- `get_items_for_recipe`'s annotation of a fetched row; the query
guarantees the expiry date is present, so the `none` branch is dead. -/
def recipeItemOf (now : Int) (it : FoodItem) : RecipeItem :=
  { id := it.id, name := it.name, category := it.category, quantity := it.quantity,
    days_remaining := daysUntilExpiry now (it.expiry_date.getD 0) }

/-- `ExpiryTracker.get_items_for_recipe(max_items)`: the first
`max_items` (configuration default 10 when the argument is omitted)
rows expiring within the fixed 3-day window, annotated with computed
days remaining. -/
def get_items_for_recipe (now : Int) (max_items : Option Nat) (store : List FoodItem) :
    List RecipeItem :=
  let m := max_items.getD MAX_INGREDIENTS_FOR_RECIPE
  let expiring := get_expiring_items now 3 store
  (expiring.take m).map (recipeItemOf now)

/-- The rows of `food_items` whose `storage_date` falls in the trailing
30-day window (`storage_date >= date('now','-30 days')`; the timestamp
string compares above the cutoff date string exactly when its calendar
day is at least the cutoff day). -/
def wasteWindow (now : Int) (store : List FoodItem) : List FoodItem :=
  store.filter (fun it => dayOf now - 30 ≤ dayOf it.storage_date)

/-- One row of the `GROUP BY category` aggregation in
`calculate_waste_statistics`. -/
structure CategoryRow where
  category : String
  count : Nat
  expired_count : Nat
deriving Repr, DecidableEq

/-- The grouped dataframe of `calculate_waste_statistics`: one row per
distinct category in the window, with `COUNT(*)` and the count of
`status = 'expired'` rows. -/
def wasteRows (now : Int) (store : List FoodItem) : List CategoryRow :=
  (((wasteWindow now store).map FoodItem.category).dedup).map (fun c =>
    { category := c,
      count := ((wasteWindow now store).filter (fun it => it.category = c)).length,
      expired_count := ((wasteWindow now store).filter
        (fun it => it.category = c ∧ it.status = "expired")).length })

/-- Python's `round(x, 2)`: round half to even at two decimals
(modelled on exact rationals). -/
def round2 (q : Rat) : Rat :=
  let scaled := q * 100
  let n : Int := ⌊scaled⌋
  let r : Rat := scaled - (n : Rat)
  let rounded : Int :=
    if r < 1 / 2 then n
    else if 1 / 2 < r then n + 1
    else if n % 2 = 0 then n else n + 1
  (rounded : Rat) / 100

/-- The statistics dictionary `calculate_waste_statistics` returns. -/
structure WasteStats where
  total_items_last_30_days : Nat
  expired_items : Nat
  waste_rate_percentage : Rat
  by_category : List CategoryRow
deriving Repr, DecidableEq

/-- `ExpiryTracker.calculate_waste_statistics`: sum the grouped counts,
divide expired by total (guarding zero with `0`), scale to a percentage
and round to two decimals. -/
def calculate_waste_statistics (now : Int) (store : List FoodItem) : WasteStats :=
  let df := wasteRows now store
  let total_items := (df.map CategoryRow.count).sum
  let total_expired := (df.map CategoryRow.expired_count).sum
  let waste_rate : Rat :=
    if 0 < total_items then (total_expired : Rat) / (total_items : Rat) * 100 else 0
  { total_items_last_30_days := total_items,
    expired_items := total_expired,
    waste_rate_percentage := round2 waste_rate,
    by_category := df }

/-- Python's `needle in hay` on character lists: `needle` occurs as a
contiguous run of `hay`. -/
def subList (needle : List Char) : List Char → Bool
  | [] => needle.isEmpty
  | c :: rest => needle.isPrefixOf (c :: rest) || subList needle rest

/-- Python's substring test `needle in hay` on strings. -/
def pyIn (needle hay : String) : Bool := subList needle.data hay.data

/-- Python's `str.lower()` (ASCII case folding suffices for the
ingredient keywords involved). -/
def pyLower (s : String) : String := String.mk (s.data.map Char.toLower)

/-- A recipe template of `_generate_fallback_recipe` (the dictionary
before the ingredient fields are added). -/
structure RecipeTemplate where
  name : String
  description : String
  cuisine_type : String
  prep_time : Int
  cook_time : Int
  servings : Int
  instructions : List String
  tips : List String
deriving Repr, DecidableEq

/-- `recipe_templates[0]`. -/
def stirFryTemplate : RecipeTemplate :=
  { name := "Quick Stir Fry",
    description := "A quick and healthy stir fry using available ingredients",
    cuisine_type := "Asian Fusion",
    prep_time := 10, cook_time := 15, servings := 2,
    instructions :=
      ["Heat oil in a large wok or skillet over high heat",
       "Add vegetables and stir fry for 3-4 minutes",
       "Add protein (if available) and cook until done",
       "Season with soy sauce, garlic, and ginger",
       "Serve hot over rice or noodles"],
    tips := ["Use high heat for best results", "Don\x27t overcrowd the pan"] }

/-- `recipe_templates[1]`. -/
def saladTemplate : RecipeTemplate :=
  { name := "Fresh Salad Bowl",
    description := "Healthy and refreshing salad using fresh ingredients",
    cuisine_type := "Mediterranean",
    prep_time := 15, cook_time := 0, servings := 2,
    instructions :=
      ["Wash and chop all fresh vegetables",
       "Combine in a large bowl",
       "Add protein of choice (if available)",
       "Dress with olive oil, lemon juice, and herbs",
       "Season with salt and pepper to taste"],
    tips := ["Use fresh, crisp vegetables", "Dress just before serving"] }

/-- `recipe_templates[2]`. -/
def onePotTemplate : RecipeTemplate :=
  { name := "One-Pot Wonder",
    description := "Easy one-pot meal using available ingredients",
    cuisine_type := "Home Cooking",
    prep_time := 10, cook_time := 25, servings := 4,
    instructions :=
      ["Heat oil in a large pot",
       "Sauté aromatics (onions, garlic) until fragrant",
       "Add vegetables and protein",
       "Add liquid (broth or water) and bring to boil",
       "Simmer until everything is cooked through",
       "Season to taste and serve"],
    tips := ["Layer ingredients by cooking time", "Don\x27t rush the process"] }

/-- The `recipe_templates` list of `_generate_fallback_recipe`. -/
def recipe_templates : List RecipeTemplate :=
  [stirFryTemplate, saladTemplate, onePotTemplate]

/-- The `has_vegetables` heuristic of `_generate_fallback_recipe`. -/
def has_vegetables (ingredients : List String) : Bool :=
  ingredients.any (fun ing =>
    pyIn "vegetable" (pyLower ing)
    || ["carrot", "broccoli", "lettuce", "tomato", "cucumber"].any
        (fun veg => pyIn veg (pyLower ing)))

/-- The `has_protein` heuristic of `_generate_fallback_recipe` (the
source's generator ranges over protein names and ingredients in that
nesting order). -/
def has_protein (ingredients : List String) : Bool :=
  ["chicken", "beef", "pork", "fish", "tofu", "eggs"].any (fun prot =>
    ingredients.any (fun ing => pyIn prot (pyLower ing)))

/-- An ingredient entry of the generated recipe. -/
structure RecipeIngredient where
  item : String
  amount : String
  unit : String
deriving Repr, DecidableEq

/-- The dictionary `_generate_fallback_recipe` returns: the selected
template plus the structured ingredient list and the source ingredient
names. -/
structure Recipe where
  template : RecipeTemplate
  ingredients : List RecipeIngredient
  used_ingredients : List String
deriving Repr, DecidableEq

/-- `RecipeGenerator._generate_fallback_recipe` (the leading underscore
is dropped from the Lean name): pick the salad template for
protein-free vegetable lists, the one-pot template for lists of four or
more ingredients, the stir-fry template otherwise, and attach one
`{item, amount: '1', unit: 'portion'}` entry per ingredient.  A total
function: no branch can fail. -/
def generate_fallback_recipe (ingredients : List String) : Recipe :=
  let selected_template :=
    if !has_protein ingredients && has_vegetables ingredients then saladTemplate
    else if 4 ≤ ingredients.length then onePotTemplate
    else stirFryTemplate
  { template := selected_template,
    ingredients := ingredients.map (fun ing =>
      { item := ing, amount := "1", unit := "portion" }),
    used_ingredients := ingredients }

/-- Whether the classification loop hits its `days_until_expiry < 0`
branch on a row (the only branch with a store side effect). -/
def isOverdue (now : Int) (it : FoodItem) : Bool :=
  match it.expiry_date with
  | none => false
  | some e => decide (daysUntilExpiry now e < 0)

/-- The ids whose status a classification pass over `items` sets to
`'expired'`, in processing order. -/
def overdueIds (now : Int) (items : List FoodItem) : List Nat :=
  (items.filter (isOverdue now)).map FoodItem.id

/-- The cumulative effect on one row of all `update_item_status _
'expired'` calls a pass issues. -/
def expireIfIn (ids : List Nat) (x : FoodItem) : FoodItem :=
  if x.id ∈ ids then { x with status := "expired" } else x

/-- The summary an item contributes to the group of tier `tier`, if
any. -/
def tierInfo (t : Thresholds) (now : Int) (tier : Tier) (it : FoodItem) :
    Option ItemInfo :=
  match it.expiry_date with
  | none => none
  | some e =>
    if tierOf t (daysUntilExpiry now e) = tier then some (infoOf now it e) else none

/-- Test-fixture row builder: quantity 1, storage at time 0. -/
def mkItem (id : Nat) (name category : String) (expiry : Option Int) (status : String) :
    FoodItem :=
  { id := id, name := name, category := category, quantity := 1, storage_date := 0,
    expiry_date := expiry, status := status }

/-- One fresh item expiring in two days (seen from time 0). -/
def sampleStore : List FoodItem := [mkItem 1 "milk" "Dairy" (some 2) "fresh"]

/-- The spec's recipe example: items at days-remaining 1, 2 and 5. -/
def recipeStore : List FoodItem :=
  [mkItem 1 "milk" "Dairy" (some 1) "fresh",
   mkItem 2 "eggs" "Dairy" (some 2) "fresh",
   mkItem 3 "beef" "Meat" (some 5) "fresh"]

/-- The spec's waste example: ten items stored in the window, three of
them expired. -/
def wasteStore : List FoodItem :=
  [mkItem 1 "a" "Dairy" none "expired", mkItem 2 "b" "Dairy" none "expired",
   mkItem 3 "c" "Dairy" none "fresh", mkItem 4 "d" "Dairy" none "fresh",
   mkItem 5 "e" "Dairy" none "fresh", mkItem 6 "f" "Dairy" none "fresh",
   mkItem 7 "g" "Meat" none "expired", mkItem 8 "h" "Meat" none "fresh",
   mkItem 9 "i" "Meat" none "fresh", mkItem 10 "j" "Meat" none "fresh"]

/-- A store with one item whose expiry (midnight of day 0) lies one hour
in the past at time 3600. -/
def pastDueStore : List FoodItem := [mkItem 1 "milk" "Dairy" (some 0) "fresh"]

/-- A store with an item missing its expiry date next to one that has
one. -/
def noExpiryStore : List FoodItem :=
  [mkItem 1 "salt" "Condiments" none "fresh", mkItem 2 "milk" "Dairy" (some 2) "fresh"]

/-- Eleven past-due fresh items; sorted by expiry the item with id 1
(expiry day -1) comes last and falls outside the default cut of 10. -/
def overdueStore : List FoodItem :=
  [mkItem 1 "i1" "c" (some (-1)) "fresh", mkItem 2 "i2" "c" (some (-2)) "fresh",
   mkItem 3 "i3" "c" (some (-3)) "fresh", mkItem 4 "i4" "c" (some (-4)) "fresh",
   mkItem 5 "i5" "c" (some (-5)) "fresh", mkItem 6 "i6" "c" (some (-6)) "fresh",
   mkItem 7 "i7" "c" (some (-7)) "fresh", mkItem 8 "i8" "c" (some (-8)) "fresh",
   mkItem 9 "i9" "c" (some (-9)) "fresh", mkItem 10 "i10" "c" (some (-10)) "fresh",
   mkItem 11 "i11" "c" (some (-11)) "fresh"]


/-! Projections of a status update.  A status write leaves every other
column unchanged. -/

@[simp] theorem setStatus_id (x : FoodItem) (s : String) :
    ({ x with status := s } : FoodItem).id = x.id := rfl

@[simp] theorem setStatus_name (x : FoodItem) (s : String) :
    ({ x with status := s } : FoodItem).name = x.name := rfl

@[simp] theorem setStatus_category (x : FoodItem) (s : String) :
    ({ x with status := s } : FoodItem).category = x.category := rfl

@[simp] theorem setStatus_quantity (x : FoodItem) (s : String) :
    ({ x with status := s } : FoodItem).quantity = x.quantity := rfl

@[simp] theorem setStatus_storage (x : FoodItem) (s : String) :
    ({ x with status := s } : FoodItem).storage_date = x.storage_date := rfl

@[simp] theorem setStatus_expiry (x : FoodItem) (s : String) :
    ({ x with status := s } : FoodItem).expiry_date = x.expiry_date := rfl

@[simp] theorem setStatus_status (x : FoodItem) (s : String) :
    ({ x with status := s } : FoodItem).status = s := rfl

@[simp] theorem setStatus_setStatus (x : FoodItem) (s s' : String) :
    ({ ({ x with status := s } : FoodItem) with status := s' } : FoodItem)
      = { x with status := s' } := rfl

@[simp] theorem expireIfIn_nil (x : FoodItem) : expireIfIn [] x = x := rfl

theorem expireIfIn_expiry (ids : List Nat) (x : FoodItem) :
    (expireIfIn ids x).expiry_date = x.expiry_date := by
  unfold expireIfIn; split <;> rfl

theorem tierInfo_expireIfIn (t : Thresholds) (now : Int) (tier : Tier)
    (ids : List Nat) (x : FoodItem) :
    tierInfo t now tier (expireIfIn ids x) = tierInfo t now tier x := by
  unfold expireIfIn; split <;> rfl

/-! Properties of the `ORDER BY expiry_date ASC` model. -/

theorem expLe_total (a b : FoodItem) : expLe a b = true ∨ expLe b a = true := by
  unfold expLe
  cases ha : a.expiry_date <;> cases hb : b.expiry_date <;> simp <;> omega

theorem expLe_trans {a b c : FoodItem} (h1 : expLe a b = true) (h2 : expLe b c = true) :
    expLe a c = true := by
  unfold expLe at h1 h2 ⊢
  cases ha : a.expiry_date <;> cases hb : b.expiry_date <;> cases hc : c.expiry_date <;>
    simp_all <;> omega

theorem insertItem_perm (x : FoodItem) (l : List FoodItem) :
    List.Perm (insertItem x l) (x :: l) := by
  induction l with
  | nil => exact List.Perm.refl _
  | cons y ys ih =>
    unfold insertItem
    by_cases hxy : expLe x y = true
    · simp only [hxy, if_true]
      exact List.Perm.refl _
    · simp only [hxy, if_false]
      exact (ih.cons y).trans (List.Perm.swap x y ys)

theorem sortItems_perm (l : List FoodItem) : List.Perm (sortItems l) l := by
  induction l with
  | nil => exact List.Perm.refl _
  | cons x xs ih =>
    unfold sortItems
    exact (insertItem_perm x (sortItems xs)).trans (ih.cons x)

theorem mem_sortItems {a : FoodItem} {l : List FoodItem} :
    a ∈ sortItems l ↔ a ∈ l := (sortItems_perm l).mem_iff

theorem pairwise_insertItem {x : FoodItem} {l : List FoodItem}
    (h : l.Pairwise (fun a b => expLe a b = true)) :
    (insertItem x l).Pairwise (fun a b => expLe a b = true) := by
  induction l with
  | nil => simp [insertItem]
  | cons y ys ih =>
    rcases List.pairwise_cons.mp h with ⟨hy, hys⟩
    unfold insertItem
    by_cases hxy : expLe x y = true
    · simp only [hxy, if_true]
      refine List.pairwise_cons.mpr ⟨?_, h⟩
      intro b hb
      rcases List.mem_cons.mp hb with hbx | hb
      · exact hbx ▸ hxy
      · exact expLe_trans hxy (hy b hb)
    · simp only [hxy, if_false]
      refine List.pairwise_cons.mpr ⟨?_, ih hys⟩
      intro b hb
      rcases List.mem_cons.mp ((insertItem_perm x ys).mem_iff.mp hb) with hbx | hb
      · subst hbx
        rcases expLe_total y b with hyb | hby
        · exact hyb
        · exact absurd hby hxy
      · exact hy b hb

theorem sortItems_sorted (l : List FoodItem) :
    (sortItems l).Pairwise (fun a b => expLe a b = true) := by
  induction l with
  | nil => simp [sortItems]
  | cons x xs ih => exact pairwise_insertItem ih

theorem insertItem_map (f : FoodItem → FoodItem)
    (hf : ∀ x, (f x).expiry_date = x.expiry_date) (x : FoodItem) (l : List FoodItem) :
    insertItem (f x) (l.map f) = (insertItem x l).map f := by
  induction l with
  | nil => rfl
  | cons y ys ih =>
    have hle : expLe (f x) (f y) = expLe x y := by
      unfold expLe; rw [hf, hf]
    simp only [List.map_cons]
    unfold insertItem
    rw [hle]
    split
    · simp
    · simp [ih]

theorem sortItems_map (f : FoodItem → FoodItem)
    (hf : ∀ x, (f x).expiry_date = x.expiry_date) (l : List FoodItem) :
    sortItems (l.map f) = (sortItems l).map f := by
  induction l with
  | nil => rfl
  | cons x xs ih =>
    simp only [List.map_cons]
    unfold sortItems
    rw [ih, insertItem_map f hf]

theorem filter_map_of_comm {f : FoodItem → FoodItem} {p : FoodItem → Bool}
    {l : List FoodItem} (h : ∀ x ∈ l, p (f x) = p x) :
    (l.map f).filter p = (l.filter p).map f := by
  rw [List.filter_map]
  exact congrArg (List.map f) (List.filter_congr h)

/-! Characterisation of the classification fold: what each group
contains and what the store side effect is. -/

theorem checkItem_fst (t : Thresholds) (now : Int) (acc : StatusGroups × List FoodItem)
    (it : FoodItem) (tier : Tier) :
    groupOf (checkItem t now acc it).1 tier
      = groupOf acc.1 tier ++ (tierInfo t now tier it).toList := by
  cases hexp : it.expiry_date with
  | none => simp [checkItem, tierInfo, hexp]
  | some e =>
    simp only [checkItem, tierInfo, hexp]
    by_cases h1 : daysUntilExpiry now e < 0
    · cases tier <;> simp [tierOf, h1, groupOf]
    · by_cases h2 : daysUntilExpiry now e ≤ t.critical
      · cases tier <;> simp [tierOf, h1, h2, groupOf]
      · by_cases h3 : daysUntilExpiry now e ≤ t.warning
        · cases tier <;> simp [tierOf, h1, h2, h3, groupOf]
        · by_cases h4 : daysUntilExpiry now e ≤ t.normal
          · cases tier <;> simp [tierOf, h1, h2, h3, h4, groupOf]
          · cases tier <;> simp [tierOf, h1, h2, h3, h4, groupOf]

theorem foldl_checkItem_groupOf (t : Thresholds) (now : Int) (tier : Tier)
    (items : List FoodItem) :
    ∀ acc : StatusGroups × List FoodItem,
    groupOf (items.foldl (checkItem t now) acc).1 tier
      = groupOf acc.1 tier ++ items.filterMap (tierInfo t now tier) := by
  induction items with
  | nil => intro acc; simp
  | cons it rest ih =>
    intro acc
    rw [List.foldl_cons, ih, checkItem_fst]
    cases h : tierInfo t now tier it <;> simp [h, List.filterMap_cons]

theorem check_expiry_groupOf (t : Thresholds) (now : Int) (store : List FoodItem)
    (tier : Tier) :
    groupOf (check_expiry_status t now store).1 tier
      = (get_all_items store).filterMap (tierInfo t now tier) := by
  unfold check_expiry_status
  rw [foldl_checkItem_groupOf]
  cases tier <;> simp [groupOf]

theorem mem_group_check {t : Thresholds} {now : Int} {store : List FoodItem}
    {tier : Tier} {i : ItemInfo} :
    i ∈ groupOf (check_expiry_status t now store).1 tier
      ↔ ∃ it ∈ get_all_items store, tierInfo t now tier it = some i := by
  rw [check_expiry_groupOf]
  exact List.mem_filterMap

theorem checkItem_snd (t : Thresholds) (now : Int) (acc : StatusGroups × List FoodItem)
    (it : FoodItem) :
    (checkItem t now acc it).2
      = if isOverdue now it then update_item_status acc.2 it.id "expired" else acc.2 := by
  cases hexp : it.expiry_date with
  | none => simp [checkItem, isOverdue, hexp]
  | some e =>
    have hov : isOverdue now it = decide (daysUntilExpiry now e < 0) := by
      simp [isOverdue, hexp]
    simp only [checkItem, hexp, hov]
    by_cases h1 : daysUntilExpiry now e < 0
    · simp [h1]
    · simp only [h1, decide_eq_true_eq, if_neg h1]
      split_ifs <;> rfl

theorem expireIfIn_after_set (ids : List Nat) (iid : Nat) (x : FoodItem) :
    expireIfIn ids (if x.id = iid then { x with status := "expired" } else x)
      = expireIfIn (iid :: ids) x := by
  unfold expireIfIn
  by_cases hx : x.id = iid
  · simp [hx]
  · simp [hx, List.mem_cons]

theorem foldl_checkItem_snd (t : Thresholds) (now : Int) (items : List FoodItem) :
    ∀ acc : StatusGroups × List FoodItem,
    (items.foldl (checkItem t now) acc).2
      = acc.2.map (expireIfIn (overdueIds now items)) := by
  induction items with
  | nil =>
    intro acc
    rw [List.foldl_nil]
    exact ((List.map_congr_left (fun x _ => expireIfIn_nil x)).trans (List.map_id _)).symm
  | cons it rest ih =>
    intro acc
    rw [List.foldl_cons, ih, checkItem_snd]
    by_cases h : isOverdue now it
    · have hov : overdueIds now (it :: rest) = it.id :: overdueIds now rest := by
        simp [overdueIds, List.filter_cons, h]
      rw [if_pos h, hov]
      unfold update_item_status
      rw [List.map_map]
      refine List.map_congr_left ?_
      intro x _
      exact expireIfIn_after_set _ _ x
    · have hov : overdueIds now (it :: rest) = overdueIds now rest := by
        simp [overdueIds, List.filter_cons, h]
      rw [if_neg h, hov]

theorem check_expiry_snd (t : Thresholds) (now : Int) (store : List FoodItem) :
    (check_expiry_status t now store).2
      = store.map (expireIfIn (overdueIds now (get_all_items store))) := by
  unfold check_expiry_status
  rw [foldl_checkItem_snd]

theorem mem_get_all_items {store : List FoodItem} {x : FoodItem} :
    x ∈ get_all_items store ↔ x ∈ store ∧ x.status ≠ "consumed" := by
  unfold get_all_items
  rw [mem_sortItems]
  simp [List.mem_filter]

theorem mem_overdueIds {now : Int} {items : List FoodItem} {a : Nat} :
    a ∈ overdueIds now items
      ↔ ∃ y, y ∈ items ∧ isOverdue now y = true ∧ y.id = a := by
  unfold overdueIds
  simp [List.mem_filter]
  constructor
  · rintro ⟨y, ⟨hy, ho⟩, hid⟩
    exact ⟨y, hy, ho, hid⟩
  · rintro ⟨y, hy, ho, hid⟩
    exact ⟨y, ⟨hy, ho⟩, hid⟩

theorem overdueIds_spec {now : Int} {store : List FoodItem}
    (hnd : (store.map FoodItem.id).Nodup) {x : FoodItem} (hx : x ∈ store) :
    x.id ∈ overdueIds now (get_all_items store)
      ↔ x.status ≠ "consumed" ∧ isOverdue now x = true := by
  constructor
  · intro h
    rcases mem_overdueIds.mp h with ⟨y, hy, ho, hid⟩
    rcases mem_get_all_items.mp hy with ⟨hys, hyc⟩
    have : y = x := List.inj_on_of_nodup_map hnd hys hx hid
    subst this
    exact ⟨hyc, ho⟩
  · rintro ⟨hc, ho⟩
    exact mem_overdueIds.mpr ⟨x, mem_get_all_items.mpr ⟨hx, hc⟩, ho, rfl⟩

theorem check_expiry_snd_nodup (t : Thresholds) (now : Int) (store : List FoodItem)
    (hnd : (store.map FoodItem.id).Nodup) :
    (check_expiry_status t now store).2
      = store.map (fun x =>
          if x.status ≠ "consumed" ∧ isOverdue now x = true
          then { x with status := "expired" } else x) := by
  rw [check_expiry_snd]
  refine List.map_congr_left ?_
  intro x hx
  unfold expireIfIn
  by_cases h : x.id ∈ overdueIds now (get_all_items store)
  · rw [if_pos h, if_pos ((overdueIds_spec hnd hx).mp h)]
  · rw [if_neg h, if_neg (fun hc => h ((overdueIds_spec hnd hx).mpr hc))]

theorem get_all_items_map (f : FoodItem → FoodItem) (store : List FoodItem)
    (hf : ∀ x, (f x).expiry_date = x.expiry_date)
    (hp : ∀ x ∈ store, ((f x).status = "consumed") ↔ (x.status = "consumed")) :
    get_all_items (store.map f) = (get_all_items store).map f := by
  unfold get_all_items
  rw [filter_map_of_comm, sortItems_map f hf]
  intro x hx
  exact decide_eq_decide.mpr (not_congr (hp x hx))

theorem get_all_items_check_snd (t : Thresholds) (now : Int) (store : List FoodItem)
    (hnd : (store.map FoodItem.id).Nodup) :
    get_all_items ((check_expiry_status t now store).2)
      = (get_all_items store).map (expireIfIn (overdueIds now (get_all_items store))) := by
  rw [check_expiry_snd]
  refine get_all_items_map _ store (expireIfIn_expiry _) ?_
  intro x hx
  unfold expireIfIn
  by_cases h : x.id ∈ overdueIds now (get_all_items store)
  · rcases (overdueIds_spec hnd hx).mp h with ⟨hc, _⟩
    rw [if_pos h]
    simp [hc]
  · rw [if_neg h]

theorem check_fst_after (t : Thresholds) (now : Int) (store : List FoodItem)
    (hnd : (store.map FoodItem.id).Nodup) :
    (check_expiry_status t now ((check_expiry_status t now store).2)).1
      = (check_expiry_status t now store).1 := by
  have hgrp : ∀ tier,
      groupOf (check_expiry_status t now ((check_expiry_status t now store).2)).1 tier
        = groupOf (check_expiry_status t now store).1 tier := by
    intro tier
    rw [check_expiry_groupOf, check_expiry_groupOf, get_all_items_check_snd t now store hnd,
      List.filterMap_map]
    refine List.filterMap_congr ?_
    intro x _
    exact tierInfo_expireIfIn t now tier _ x
  exact StatusGroups.ext (hgrp .critical) (hgrp .warning) (hgrp .normal) (hgrp .fresh)

theorem nodup_get_all_items_ids {store : List FoodItem}
    (hnd : (store.map FoodItem.id).Nodup) :
    ((get_all_items store).map FoodItem.id).Nodup := by
  unfold get_all_items
  have h1 : ((store.filter (fun it => it.status ≠ "consumed")).map FoodItem.id).Sublist
      (store.map FoodItem.id) := (List.filter_sublist store).map FoodItem.id
  have h2 := hnd.sublist h1
  exact (((sortItems_perm _).map FoodItem.id).nodup_iff).mpr h2

theorem tierInfo_eq_some {t : Thresholds} {now : Int} {tier : Tier} {it : FoodItem}
    {i : ItemInfo} (h : tierInfo t now tier it = some i) :
    ∃ e, it.expiry_date = some e ∧ tierOf t (daysUntilExpiry now e) = tier
      ∧ i = infoOf now it e := by
  rcases hexp : it.expiry_date with _ | e
  · simp [tierInfo, hexp] at h
  · simp only [tierInfo, hexp] at h
    by_cases ht : tierOf t (daysUntilExpiry now e) = tier
    · rw [if_pos ht] at h
      exact ⟨e, rfl, ht, (Option.some.inj h).symm⟩
    · rw [if_neg ht] at h; cases h

theorem group_member_unique {t : Thresholds} {now : Int} {store : List FoodItem}
    (hnd : (store.map FoodItem.id).Nodup) {tier tier' : Tier} {i i' : ItemInfo}
    (h : i ∈ groupOf (check_expiry_status t now store).1 tier)
    (h' : i' ∈ groupOf (check_expiry_status t now store).1 tier')
    (hid : i.id = i'.id) : tier = tier' ∧ i = i' := by
  rcases mem_group_check.mp h with ⟨it, hit, hsome⟩
  rcases mem_group_check.mp h' with ⟨it', hit', hsome'⟩
  rcases tierInfo_eq_some hsome with ⟨e, he, htier, hi⟩
  rcases tierInfo_eq_some hsome' with ⟨e', he', htier', hi'⟩
  have hids : it.id = it'.id := by
    rw [hi, hi'] at hid
    exact hid
  have heq : it = it' :=
    List.inj_on_of_nodup_map (nodup_get_all_items_ids hnd) hit hit' hids
  subst heq
  have hee : e = e' := by
    rw [he] at he'
    exact Option.some.inj he'
  subst hee
  refine ⟨?_, ?_⟩
  · rw [← htier, htier']
  · rw [hi, hi']

/-! Arithmetic facts about the day computation. -/

theorem daysUntilExpiry_mono {now e e' : Int} (h : e ≤ e') :
    daysUntilExpiry now e ≤ daysUntilExpiry now e' := by
  unfold daysUntilExpiry pandasDays
  rw [Int.fdiv_eq_ediv _ (by norm_num), Int.fdiv_eq_ediv _ (by norm_num)]
  exact Int.ediv_le_ediv (by norm_num) (by omega)

theorem daysUntilExpiry_neg_iff {now e : Int} :
    daysUntilExpiry now e < 0 ↔ e * 86400 < now := by
  unfold daysUntilExpiry pandasDays
  rw [Int.fdiv_eq_ediv _ (by norm_num)]
  omega

theorem dayOf_mono {a b : Int} (h : a ≤ b) : dayOf a ≤ dayOf b := by
  unfold dayOf
  rw [Int.fdiv_eq_ediv _ (by norm_num), Int.fdiv_eq_ediv _ (by norm_num)]
  exact Int.ediv_le_ediv (by norm_num) h

theorem le_dayOf_mul {e t : Int} (h : e * 86400 ≤ t) : e ≤ dayOf t := by
  unfold dayOf
  rw [Int.fdiv_eq_ediv _ (by norm_num)]
  omega

/-! Sum lemmas for the `GROUP BY` aggregation. -/

theorem sum_map_zero (cs : List String) : (cs.map (fun _ => (0 : Nat))).sum = 0 := by
  induction cs with
  | nil => rfl
  | cons c cs ih => simp [ih]

theorem sum_map_add (f g : String → Nat) (cs : List String) :
    (cs.map (fun c => f c + g c)).sum = (cs.map f).sum + (cs.map g).sum := by
  induction cs with
  | nil => rfl
  | cons c cs ih =>
    simp only [List.map_cons, List.sum_cons, ih]
    omega

theorem sum_indicator_zero {k : String} {cs : List String} (hk : k ∉ cs) :
    (cs.map (fun c => if k = c then (1 : Nat) else 0)).sum = 0 := by
  induction cs with
  | nil => rfl
  | cons c cs ih =>
    simp only [List.map_cons, List.sum_cons]
    rw [if_neg (fun h => hk (by rw [h]; exact List.mem_cons_self c cs))]
    rw [ih (fun h => hk (List.mem_cons_of_mem _ h))]

theorem sum_indicator_one {k : String} {cs : List String} (hnd : cs.Nodup)
    (hk : k ∈ cs) :
    (cs.map (fun c => if k = c then (1 : Nat) else 0)).sum = 1 := by
  induction cs with
  | nil => cases hk
  | cons c cs ih =>
    rcases List.nodup_cons.mp hnd with ⟨hc, hnd'⟩
    simp only [List.map_cons, List.sum_cons]
    rcases List.mem_cons.mp hk with hkc | hk'
    · rw [if_pos hkc, sum_indicator_zero (by rw [hkc]; exact hc)]
    · rw [if_neg (fun h => hc (by rw [← h]; exact hk')), ih hnd' hk']

theorem sum_group_counts {α : Type} (key : α → String) (l : List α) (cs : List String)
    (hnd : cs.Nodup) (hcov : ∀ x ∈ l, key x ∈ cs) :
    (cs.map (fun c => (l.filter (fun x => key x = c)).length)).sum = l.length := by
  induction l with
  | nil => simpa using sum_map_zero cs
  | cons x l ih =>
    have hstep : (fun c => ((x :: l).filter (fun y => key y = c)).length)
        = (fun c => (if key x = c then (1 : Nat) else 0)
            + (l.filter (fun y => key y = c)).length) := by
      funext c
      by_cases h : key x = c <;> simp [List.filter_cons, h, Nat.add_comm]
    rw [hstep, sum_map_add, sum_indicator_one hnd (hcov x (List.mem_cons_self x l)),
      ih (fun y hy => hcov y (List.mem_cons_of_mem _ hy))]
    simp [Nat.add_comm]

theorem round2_whole (k : Int) : round2 ((k : Rat)) = (k : Rat) := by
  have h100 : ((k : Rat)) * 100 = ((100 * k : Int) : Rat) := by push_cast; ring
  simp only [round2]
  rw [h100, Int.floor_intCast, sub_self]
  rw [if_pos (by norm_num : (0 : Rat) < 1 / 2)]
  push_cast
  rw [mul_comm, mul_div_assoc]
  norm_num

theorem mem_alertsOfGroups {g : StatusGroups} {a : Alert} :
    a ∈ alertsOfGroups g
      ↔ (∃ i ∈ g.critical,
            a = { food_item_id := i.id, alert_type := "expiry",
                  alert_level := "critical", message := criticalMessage i })
        ∨ (∃ i ∈ g.warning,
            a = { food_item_id := i.id, alert_type := "expiry",
                  alert_level := "warning", message := expiresInMessage i })
        ∨ (∃ i ∈ g.normal,
            a = { food_item_id := i.id, alert_type := "expiry",
                  alert_level := "normal", message := expiresInMessage i }) := by
  unfold alertsOfGroups
  simp only [List.mem_append, List.mem_map]
  constructor
  · rintro ((⟨i, hi, rfl⟩ | ⟨i, hi, rfl⟩) | ⟨i, hi, rfl⟩)
    · exact Or.inl ⟨i, hi, rfl⟩
    · exact Or.inr (Or.inl ⟨i, hi, rfl⟩)
    · exact Or.inr (Or.inr ⟨i, hi, rfl⟩)
  · rintro (⟨i, hi, rfl⟩ | ⟨i, hi, rfl⟩ | ⟨i, hi, rfl⟩)
    · exact Or.inl (Or.inl ⟨i, hi, rfl⟩)
    · exact Or.inl (Or.inr ⟨i, hi, rfl⟩)
    · exact Or.inr ⟨i, hi, rfl⟩

/-- C1: for every (non-consumed) item with an expiry date, the
classification pass files it under the tier obtained by the ordered
first-match rules `d < 0 → critical`, `d ≤ critical_threshold →
critical`, `d ≤ warning_threshold → warning`, `d ≤ normal_threshold →
normal`, otherwise `fresh`; with the default thresholds `{1,3,7}` the
boundary values map as `-1,0,1 → critical`, `2,3 → warning`, `4,7 →
normal`, `8 → fresh`. -/
theorem claim1_tier_assignment (t : Thresholds) (now : Int) (store : List FoodItem)
    (it : FoodItem) (e : Int) (hmem : it ∈ store) (hcons : it.status ≠ "consumed")
    (hexp : it.expiry_date = some e) :
    infoOf now it e ∈
      groupOf (check_expiry_status t now store).1 (tierOf t (daysUntilExpiry now e))
    ∧ (∀ d : Int,
        (d < 0 → tierOf t d = .critical)
        ∧ (¬ d < 0 → d ≤ t.critical → tierOf t d = .critical)
        ∧ (¬ d < 0 → ¬ d ≤ t.critical → d ≤ t.warning → tierOf t d = .warning)
        ∧ (¬ d < 0 → ¬ d ≤ t.critical → ¬ d ≤ t.warning → d ≤ t.normal →
            tierOf t d = .normal)
        ∧ (¬ d < 0 → ¬ d ≤ t.critical → ¬ d ≤ t.warning → ¬ d ≤ t.normal →
            tierOf t d = .fresh))
    ∧ (tierOf ALERT_THRESHOLDS (-1) = .critical ∧ tierOf ALERT_THRESHOLDS 0 = .critical
        ∧ tierOf ALERT_THRESHOLDS 1 = .critical ∧ tierOf ALERT_THRESHOLDS 2 = .warning
        ∧ tierOf ALERT_THRESHOLDS 3 = .warning ∧ tierOf ALERT_THRESHOLDS 4 = .normal
        ∧ tierOf ALERT_THRESHOLDS 7 = .normal ∧ tierOf ALERT_THRESHOLDS 8 = .fresh) := by
  refine ⟨?_, ?_, ?_⟩
  · apply mem_group_check.mpr
    refine ⟨it, mem_get_all_items.mpr ⟨hmem, hcons⟩, ?_⟩
    simp [tierInfo, hexp]
  · intro d
    refine ⟨?_, ?_, ?_, ?_, ?_⟩ <;> intros <;> simp [tierOf, *]
  · exact ⟨by decide, by decide, by decide, by decide, by decide, by decide, by decide,
      by decide⟩

/-- Witness for C1 at a concrete store: the sample item lands in the
warning group computed for its two days remaining. -/
theorem claim1_witness :
    infoOf 0 (mkItem 1 "milk" "Dairy" (some 2) "fresh") 2 ∈
      groupOf (check_expiry_status ALERT_THRESHOLDS 0 sampleStore).1
        (tierOf ALERT_THRESHOLDS (daysUntilExpiry 0 2)) :=
  (claim1_tier_assignment ALERT_THRESHOLDS 0 sampleStore
    (mkItem 1 "milk" "Dairy" (some 2) "fresh") 2
    (by decide) (by decide) rfl).1

/-- C2: one `generate_alerts` call inserts exactly one alert row per
item classified critical, warning or normal, with no dedup check, so
two successive calls at the same instant with no intervening item
changes append the same full alert set twice (assuming the primary-key
invariant that item ids are distinct). -/
theorem claim2_not_idempotent (t : Thresholds) (now : Int) (db : DB)
    (hnd : (db.items.map FoodItem.id).Nodup) :
    (generate_alerts t now (generate_alerts t now db)).alerts
      = db.alerts ++ alertsOfGroups (check_expiry_status t now db.items).1
          ++ alertsOfGroups (check_expiry_status t now db.items).1
    ∧ (alertsOfGroups (check_expiry_status t now db.items).1).map Alert.food_item_id
      = ((check_expiry_status t now db.items).1.critical
          ++ (check_expiry_status t now db.items).1.warning
          ++ (check_expiry_status t now db.items).1.normal).map ItemInfo.id := by
  constructor
  · show (db.alerts ++ alertsOfGroups (check_expiry_status t now db.items).1)
        ++ alertsOfGroups
            (check_expiry_status t now ((check_expiry_status t now db.items).2)).1
      = _
    rw [check_fst_after t now db.items hnd, List.append_assoc]
  · simp only [alertsOfGroups, List.map_append, List.map_map]
    rfl

/-- Witness for C2: both hypotheses and the double-call equation at a
concrete one-item database. -/
theorem claim2_witness :
    (generate_alerts ALERT_THRESHOLDS 0
        (generate_alerts ALERT_THRESHOLDS 0 { items := sampleStore, alerts := [] })).alerts
      = ([] : List Alert)
          ++ alertsOfGroups (check_expiry_status ALERT_THRESHOLDS 0 sampleStore).1
          ++ alertsOfGroups (check_expiry_status ALERT_THRESHOLDS 0 sampleStore).1 :=
  (claim2_not_idempotent ALERT_THRESHOLDS 0 { items := sampleStore, alerts := [] }
    (by decide)).1

/-- C3: every alerted item's message follows its tier template —
critical items past due get "<name> has EXPIRED <n> day(s) ago!",
critical due today get "<name> expires TODAY!", critical due later get
"<name> expires in <n> day(s)!", warning and normal items get "<name>
expires in <n> day(s)" — and fresh-tier items never receive an alert. -/
theorem claim3_alert_messages (t : Thresholds) (now : Int) (store : List FoodItem)
    (hnd : (store.map FoodItem.id).Nodup) :
    (∀ i ∈ (check_expiry_status t now store).1.critical, i.days_remaining < 0 →
      ({ food_item_id := i.id, alert_type := "expiry", alert_level := "critical",
         message := i.name ++ " has EXPIRED " ++ toString i.days_remaining.natAbs
           ++ " day(s) ago!" } : Alert)
        ∈ alertsOfGroups (check_expiry_status t now store).1)
    ∧ (∀ i ∈ (check_expiry_status t now store).1.critical, i.days_remaining = 0 →
      ({ food_item_id := i.id, alert_type := "expiry", alert_level := "critical",
         message := i.name ++ " expires TODAY!" } : Alert)
        ∈ alertsOfGroups (check_expiry_status t now store).1)
    ∧ (∀ i ∈ (check_expiry_status t now store).1.critical, 0 < i.days_remaining →
      ({ food_item_id := i.id, alert_type := "expiry", alert_level := "critical",
         message := i.name ++ " expires in " ++ toString i.days_remaining
           ++ " day(s)!" } : Alert)
        ∈ alertsOfGroups (check_expiry_status t now store).1)
    ∧ (∀ i ∈ (check_expiry_status t now store).1.warning,
      ({ food_item_id := i.id, alert_type := "expiry", alert_level := "warning",
         message := i.name ++ " expires in " ++ toString i.days_remaining
           ++ " day(s)" } : Alert)
        ∈ alertsOfGroups (check_expiry_status t now store).1)
    ∧ (∀ i ∈ (check_expiry_status t now store).1.normal,
      ({ food_item_id := i.id, alert_type := "expiry", alert_level := "normal",
         message := i.name ++ " expires in " ++ toString i.days_remaining
           ++ " day(s)" } : Alert)
        ∈ alertsOfGroups (check_expiry_status t now store).1)
    ∧ (∀ i ∈ (check_expiry_status t now store).1.fresh,
        ∀ a ∈ alertsOfGroups (check_expiry_status t now store).1,
          a.food_item_id ≠ i.id) := by
  refine ⟨?_, ?_, ?_, ?_, ?_, ?_⟩
  · intro i hi hneg
    apply mem_alertsOfGroups.mpr
    refine Or.inl ⟨i, hi, ?_⟩
    simp [criticalMessage, hneg]
  · intro i hi h0
    apply mem_alertsOfGroups.mpr
    refine Or.inl ⟨i, hi, ?_⟩
    simp [criticalMessage, h0]
  · intro i hi hpos
    apply mem_alertsOfGroups.mpr
    refine Or.inl ⟨i, hi, ?_⟩
    have h1 : ¬ i.days_remaining < 0 := by omega
    have h2 : ¬ i.days_remaining = 0 := by omega
    simp [criticalMessage, h1, h2]
  · intro i hi
    exact mem_alertsOfGroups.mpr (Or.inr (Or.inl ⟨i, hi, rfl⟩))
  · intro i hi
    exact mem_alertsOfGroups.mpr (Or.inr (Or.inr ⟨i, hi, rfl⟩))
  · intro i hi a ha heq
    rcases mem_alertsOfGroups.mp ha with ⟨j, hj, rfl⟩ | ⟨j, hj, rfl⟩ | ⟨j, hj, rfl⟩
    · exact Tier.noConfusion
        (@group_member_unique t now store hnd Tier.critical Tier.fresh j i hj hi heq).1
    · exact Tier.noConfusion
        (@group_member_unique t now store hnd Tier.warning Tier.fresh j i hj hi heq).1
    · exact Tier.noConfusion
        (@group_member_unique t now store hnd Tier.normal Tier.fresh j i hj hi heq).1

/-- Witness for C3: the warning-tier template instance at a concrete
store. -/
theorem claim3_witness :
    ({ food_item_id := 1, alert_type := "expiry", alert_level := "warning",
       message := "milk expires in 2 day(s)" } : Alert)
      ∈ alertsOfGroups (check_expiry_status ALERT_THRESHOLDS 0 sampleStore).1 := by
  have h := (claim3_alert_messages ALERT_THRESHOLDS 0 sampleStore (by decide)).2.2.2.1
    (infoOf 0 (mkItem 1 "milk" "Dairy" (some 2) "fresh") 2) (by decide)
  exact h

/-- C4: a classification pass rewrites the store row-for-row; a row is
changed only when its days remaining are negative (and it is part of
the non-consumed fetch), in which case exactly its status is set to
`'expired'`; consumed rows and non-overdue rows are untouched, expired
rows stay expired, and `generate_alerts` performs the same store update
and no other. -/
theorem claim4_frame (t : Thresholds) (now : Int) (store : List FoodItem)
    (hnd : (store.map FoodItem.id).Nodup) :
    ((check_expiry_status t now store).2).length = store.length
    ∧ (∀ (i : Nat) (hi : i < store.length)
        (hi' : i < ((check_expiry_status t now store).2).length),
        (((check_expiry_status t now store).2).get ⟨i, hi'⟩).expiry_date
            = (store.get ⟨i, hi⟩).expiry_date
        ∧ (((check_expiry_status t now store).2).get ⟨i, hi'⟩).id
            = (store.get ⟨i, hi⟩).id
        ∧ (((check_expiry_status t now store).2).get ⟨i, hi'⟩).name
            = (store.get ⟨i, hi⟩).name
        ∧ (((check_expiry_status t now store).2).get ⟨i, hi'⟩).category
            = (store.get ⟨i, hi⟩).category
        ∧ (((check_expiry_status t now store).2).get ⟨i, hi'⟩).quantity
            = (store.get ⟨i, hi⟩).quantity
        ∧ (((check_expiry_status t now store).2).get ⟨i, hi'⟩).storage_date
            = (store.get ⟨i, hi⟩).storage_date
        ∧ ((store.get ⟨i, hi⟩).status ≠ "consumed"
            ∧ isOverdue now (store.get ⟨i, hi⟩) = true
            → ((check_expiry_status t now store).2).get ⟨i, hi'⟩
              = { store.get ⟨i, hi⟩ with status := "expired" })
        ∧ ((store.get ⟨i, hi⟩).status = "consumed"
            ∨ isOverdue now (store.get ⟨i, hi⟩) = false
            → ((check_expiry_status t now store).2).get ⟨i, hi'⟩
              = store.get ⟨i, hi⟩)
        ∧ ((store.get ⟨i, hi⟩).status = "expired"
            → (((check_expiry_status t now store).2).get ⟨i, hi'⟩).status = "expired"))
    ∧ (∀ alerts : List Alert,
        (generate_alerts t now { items := store, alerts := alerts }).items
          = (check_expiry_status t now store).2) := by
  have hmap := check_expiry_snd_nodup t now store hnd
  refine ⟨by rw [hmap]; exact List.length_map store _, ?_, fun _ => rfl⟩
  intro i hi hi'
  have hget : ((check_expiry_status t now store).2).get ⟨i, hi'⟩
      = if (store.get ⟨i, hi⟩).status ≠ "consumed"
          ∧ isOverdue now (store.get ⟨i, hi⟩) = true
        then { store.get ⟨i, hi⟩ with status := "expired" }
        else store.get ⟨i, hi⟩ := by
    have hidx : ((check_expiry_status t now store).2).get ⟨i, hi'⟩
        = ((check_expiry_status t now store).2)[i] := rfl
    rw [hidx]
    simp only [hmap]
    rw [List.getElem_map]
    rfl
  rw [hget]
  by_cases h : (store.get ⟨i, hi⟩).status ≠ "consumed"
      ∧ isOverdue now (store.get ⟨i, hi⟩) = true
  · rw [if_pos h]
    refine ⟨rfl, rfl, rfl, rfl, rfl, rfl, fun _ => rfl, ?_, fun _ => rfl⟩
    rintro (hc | ho)
    · exact absurd hc h.1
    · rw [h.2] at ho; cases ho
  · rw [if_neg h]
    exact ⟨rfl, rfl, rfl, rfl, rfl, rfl, fun hc => absurd hc h, fun _ => rfl, fun he => he⟩

/-- Witness for C4: the length-preservation component at a concrete
store. -/
theorem claim4_witness :
    ((check_expiry_status ALERT_THRESHOLDS 0 sampleStore).2).length
      = sampleStore.length :=
  (claim4_frame ALERT_THRESHOLDS 0 sampleStore (by decide)).1

/-- C5 counterexample: an item whose expiry (midnight of day 0) lies one
hour in the past — less than one full day — is classified with
`days_remaining = -1`, not the `0` that truncation toward zero would
give: pandas `Timedelta.days` floors. -/
theorem claim5_counterexample :
    daysUntilExpiry 3600 0 = -1
    ∧ ((check_expiry_status ALERT_THRESHOLDS 3600 pastDueStore).1.critical.map
        ItemInfo.days_remaining) = [-1] := by
  constructor
  · decide
  · decide

/-- C5 amended: `days_remaining` is the floor of `(expiry - now)` in
whole days (rounding toward negative infinity, the semantics of pandas
`Timedelta.days`), so an expiry less than one full day in the past
yields `-1`, not `0`. -/
theorem claim5_floor_semantics (now e : Int) :
    86400 * daysUntilExpiry now e ≤ e * 86400 - now
    ∧ e * 86400 - now < 86400 * (daysUntilExpiry now e + 1)
    ∧ (now - 86400 < e * 86400 → e * 86400 < now → daysUntilExpiry now e = -1) := by
  unfold daysUntilExpiry pandasDays
  rw [Int.fdiv_eq_ediv _ (by norm_num)]
  refine ⟨?_, ?_, ?_⟩ <;> intros <;> omega

/-- Witness for C5's amended statement: the one-hour-past expiry. -/
theorem claim5_witness :
    ((3600 : Int) - 86400 < 0 * 86400) ∧ ((0 : Int) * 86400 < 3600)
    ∧ daysUntilExpiry 3600 0 = -1 :=
  ⟨by decide, by decide, (claim5_floor_semantics 3600 0).2.2 (by decide) (by decide)⟩

/-- C6: an item without an expiry date is skipped by the classification
pass — it appears in none of the four tier groups, no alert row
references it, and its stored row is untouched; the absent date is
handled by a total skip, never as an error. -/
theorem claim6_missing_expiry_skipped (t : Thresholds) (now : Int)
    (store : List FoodItem) (hnd : (store.map FoodItem.id).Nodup)
    (it : FoodItem) (hmem : it ∈ store) (hexp : it.expiry_date = none) :
    (∀ i ∈ (check_expiry_status t now store).1.critical, i.id ≠ it.id)
    ∧ (∀ i ∈ (check_expiry_status t now store).1.warning, i.id ≠ it.id)
    ∧ (∀ i ∈ (check_expiry_status t now store).1.normal, i.id ≠ it.id)
    ∧ (∀ i ∈ (check_expiry_status t now store).1.fresh, i.id ≠ it.id)
    ∧ (∀ a ∈ alertsOfGroups (check_expiry_status t now store).1,
        a.food_item_id ≠ it.id)
    ∧ (∀ (i : Nat) (hi : i < store.length)
        (hi' : i < ((check_expiry_status t now store).2).length),
        store.get ⟨i, hi⟩ = it
        → ((check_expiry_status t now store).2).get ⟨i, hi'⟩ = it) := by
  have hgroup : ∀ tier : Tier, ∀ i ∈ groupOf (check_expiry_status t now store).1 tier,
      i.id ≠ it.id := by
    intro tier i hi heq
    rcases mem_group_check.mp hi with ⟨y, hy, hsome⟩
    rcases tierInfo_eq_some hsome with ⟨e, he, _, hieq⟩
    have hid : y.id = it.id := by
      rw [hieq] at heq
      exact heq
    have : y = it :=
      List.inj_on_of_nodup_map hnd (mem_get_all_items.mp hy).1 hmem hid
    rw [this] at he
    rw [hexp] at he
    cases he
  refine ⟨hgroup .critical, hgroup .warning, hgroup .normal, hgroup .fresh, ?_, ?_⟩
  · intro a ha heq
    rcases mem_alertsOfGroups.mp ha with ⟨j, hj, rfl⟩ | ⟨j, hj, rfl⟩ | ⟨j, hj, rfl⟩
    · exact hgroup .critical j hj heq
    · exact hgroup .warning j hj heq
    · exact hgroup .normal j hj heq
  · intro i hi hi' hit
    have hmap := check_expiry_snd_nodup t now store hnd
    have hidx : ((check_expiry_status t now store).2).get ⟨i, hi'⟩
        = ((check_expiry_status t now store).2)[i] := rfl
    rw [hidx]
    simp only [hmap]
    rw [List.getElem_map]
    have hov : isOverdue now (store[i]) = false := by
      have : store[i] = it := hit
      rw [this]
      simp [isOverdue, hexp]
    rw [show (store[i] : FoodItem) = it from hit] at hov ⊢
    rw [if_neg]
    intro hcon
    rw [hov] at hcon
    cases hcon.2

/-- Witness for C6: the expiry-less item of a concrete store is absent
from the critical group. -/
theorem claim6_witness :
    ({ food_item_id := 2, alert_type := "expiry", alert_level := "warning",
       message := "milk expires in 2 day(s)" } : Alert).food_item_id
      ≠ (mkItem 1 "salt" "Condiments" none "fresh").id := by
  have h := (claim6_missing_expiry_skipped ALERT_THRESHOLDS 0 noExpiryStore (by decide)
    (mkItem 1 "salt" "Condiments" none "fresh") (by decide) rfl).2.2.2.2.1
    { food_item_id := 2, alert_type := "expiry", alert_level := "warning",
      message := "milk expires in 2 day(s)" } (by decide)
  exact h

theorem mem_get_expiring_items {now dt : Int} {store : List FoodItem} {x : FoodItem} :
    x ∈ get_expiring_items now dt store
      ↔ x ∈ store ∧ ∃ e, x.expiry_date = some e
          ∧ e ≤ dayOf (now + dt * 86400) ∧ x.status = "fresh" := by
  simp only [get_expiring_items]
  rw [mem_sortItems, List.mem_filter]
  constructor
  · rintro ⟨hx, hp⟩
    rcases hexp : x.expiry_date with _ | e
    · rw [hexp] at hp; cases hp
    · rw [hexp] at hp
      simp only [decide_eq_true_eq] at hp
      exact ⟨hx, e, rfl, hp.1, hp.2⟩
  · rintro ⟨hx, e, hexp, hle, hfr⟩
    refine ⟨hx, ?_⟩
    rw [hexp]
    simp [hle, hfr]

/-- C7: `get_items_for_recipe` returns at most `max_items` entries
(default 10 from configuration), all drawn from fresh items whose
expiry falls on or before the three-day look-ahead date, ordered by
soonest expiry first and annotated with the computed days remaining;
an empty candidate set yields the empty list; and on the spec's
`[1, 2, 5]` example with `max_items = 2` it returns exactly the items
with one and two days remaining, in that order. -/
theorem claim7_recipe_selection (now : Int) (max_items : Option Nat)
    (store : List FoodItem) :
    (get_items_for_recipe now max_items store).length
        ≤ max_items.getD MAX_INGREDIENTS_FOR_RECIPE
    ∧ (∀ x ∈ get_items_for_recipe now max_items store,
        ∃ it ∈ store, it.status = "fresh" ∧ ∃ e, it.expiry_date = some e
          ∧ e ≤ dayOf (now + 3 * 86400)
          ∧ x = { id := it.id, name := it.name, category := it.category,
                  quantity := it.quantity,
                  days_remaining := daysUntilExpiry now e })
    ∧ (get_items_for_recipe now max_items store).Pairwise
        (fun a b => a.days_remaining ≤ b.days_remaining)
    ∧ (get_expiring_items now 3 store = []
        → get_items_for_recipe now max_items store = [])
    ∧ get_items_for_recipe 0 (some 2) recipeStore
        = [{ id := 1, name := "milk", category := "Dairy", quantity := 1,
             days_remaining := 1 },
           { id := 2, name := "eggs", category := "Dairy", quantity := 1,
             days_remaining := 2 }] := by
  refine ⟨?_, ?_, ?_, ?_, by decide⟩
  · simp only [get_items_for_recipe, List.length_map]
    exact List.length_take_le _ _
  · intro x hx
    simp only [get_items_for_recipe, List.mem_map] at hx
    rcases hx with ⟨y, hy, rfl⟩
    have hmem := List.mem_of_mem_take hy
    rcases mem_get_expiring_items.mp hmem with ⟨hys, e, hexp, hle, hfr⟩
    refine ⟨y, hys, hfr, e, hexp, hle, ?_⟩
    simp [recipeItemOf, hexp]
  · simp only [get_items_for_recipe]
    apply List.pairwise_map.mpr
    have hsorted : (get_expiring_items now 3 store).Pairwise
        (fun a b => expLe a b = true) := by
      simp only [get_expiring_items]
      exact sortItems_sorted _
    have htake := List.Pairwise.sublist
      (List.take_sublist (max_items.getD MAX_INGREDIENTS_FOR_RECIPE)
        (get_expiring_items now 3 store)) hsorted
    refine htake.imp_of_mem ?_
    intro a b ha hb hle
    rcases mem_get_expiring_items.mp (List.mem_of_mem_take ha) with ⟨_, ea, hea, _, _⟩
    rcases mem_get_expiring_items.mp (List.mem_of_mem_take hb) with ⟨_, eb, heb, _, _⟩
    have hee : ea ≤ eb := by
      unfold expLe at hle
      rw [hea, heb] at hle
      simpa using hle
    simp only [recipeItemOf, hea, heb]
    exact daysUntilExpiry_mono hee
  · intro hempty
    simp [get_items_for_recipe, hempty]

/-- Witness for C7: the spec's concrete example instance. -/
theorem claim7_witness :
    get_items_for_recipe 0 (some 2) recipeStore
      = [{ id := 1, name := "milk", category := "Dairy", quantity := 1,
           days_remaining := 1 },
         { id := 2, name := "eggs", category := "Dairy", quantity := 1,
           days_remaining := 2 }] :=
  (claim7_recipe_selection 0 (some 2) recipeStore).2.2.2.2

theorem wasteRows_count_sum (now : Int) (store : List FoodItem) :
    ((wasteRows now store).map CategoryRow.count).sum = (wasteWindow now store).length := by
  unfold wasteRows
  rw [List.map_map]
  exact sum_group_counts FoodItem.category (wasteWindow now store) _ (List.nodup_dedup _)
    (fun x hx => List.mem_dedup.mpr (List.mem_map_of_mem _ hx))

theorem wasteRows_expired_sum (now : Int) (store : List FoodItem) :
    ((wasteRows now store).map CategoryRow.expired_count).sum
      = ((wasteWindow now store).filter (fun it => it.status = "expired")).length := by
  unfold wasteRows
  rw [List.map_map]
  have hfun : (CategoryRow.expired_count ∘ (fun c =>
      ({ category := c,
         count := ((wasteWindow now store).filter (fun it => it.category = c)).length,
         expired_count := ((wasteWindow now store).filter
           (fun it => it.category = c ∧ it.status = "expired")).length } : CategoryRow)))
      = fun c => (((wasteWindow now store).filter
          (fun it => it.status = "expired")).filter (fun it => it.category = c)).length := by
    funext c
    show ((wasteWindow now store).filter
        (fun it => it.category = c ∧ it.status = "expired")).length = _
    rw [List.filter_filter]
    congr 1
    refine List.filter_congr ?_
    intro x _
    simp [Bool.decide_and, Bool.and_comm]
  rw [hfun]
  exact sum_group_counts FoodItem.category
    ((wasteWindow now store).filter (fun it => it.status = "expired")) _
    (List.nodup_dedup _)
    (fun x hx => List.mem_dedup.mpr (List.mem_map_of_mem _ (List.mem_of_mem_filter hx)))

/-- C8: over the rows whose storage day falls in the trailing 30-day
window, `calculate_waste_statistics` reports the window's row count,
its count of `'expired'` rows, and a waste rate of
`expired / total * 100` rounded to two decimals — `0.0` with no
division-by-zero failure on an empty window — and on the spec's
example of ten windowed items with three expired the rate is exactly
`30.0`. -/
theorem claim8_waste_statistics (now : Int) (store : List FoodItem) :
    (calculate_waste_statistics now store).total_items_last_30_days
        = (wasteWindow now store).length
    ∧ (calculate_waste_statistics now store).expired_items
        = ((wasteWindow now store).filter (fun it => it.status = "expired")).length
    ∧ (calculate_waste_statistics now store).waste_rate_percentage
        = (if 0 < (wasteWindow now store).length
           then round2 (((((wasteWindow now store).filter
                  (fun it => it.status = "expired")).length : Nat) : Rat)
                / (((wasteWindow now store).length : Nat) : Rat) * 100)
           else 0)
    ∧ ((wasteWindow now store).length = 0
        → (calculate_waste_statistics now store).waste_rate_percentage = 0)
    ∧ (calculate_waste_statistics 0 wasteStore).waste_rate_percentage = 30
    ∧ (calculate_waste_statistics 0 ([] : List FoodItem)).waste_rate_percentage = 0 := by
  have h1 := wasteRows_count_sum now store
  have h2 := wasteRows_expired_sum now store
  have hrate : (calculate_waste_statistics now store).waste_rate_percentage
      = (if 0 < (wasteWindow now store).length
         then round2 (((((wasteWindow now store).filter
                (fun it => it.status = "expired")).length : Nat) : Rat)
              / (((wasteWindow now store).length : Nat) : Rat) * 100)
         else 0) := by
    simp only [calculate_waste_statistics]
    rw [h1, h2]
    split_ifs
    · rfl
    · simpa using round2_whole 0
  refine ⟨?_, ?_, hrate, ?_, ?_, ?_⟩
  · simp only [calculate_waste_statistics]
    exact h1
  · simp only [calculate_waste_statistics]
    exact h2
  · intro h0
    rw [hrate, if_neg (by rw [h0]; exact lt_irrefl 0)]
  · have ht : ((wasteRows 0 wasteStore).map CategoryRow.count).sum = 10 := by decide
    have he : ((wasteRows 0 wasteStore).map CategoryRow.expired_count).sum = 3 := by
      decide
    simp only [calculate_waste_statistics]
    rw [ht, he, if_pos (by norm_num : (0 : Nat) < 10)]
    have hval : (((3 : Nat) : Rat)) / (((10 : Nat) : Rat)) * 100 = ((30 : Int) : Rat) := by
      push_cast
      norm_num
    rw [hval, round2_whole]
    norm_num
  · have ht : ((wasteRows 0 ([] : List FoodItem)).map CategoryRow.count).sum = 0 := by
      decide
    have he : ((wasteRows 0 ([] : List FoodItem)).map CategoryRow.expired_count).sum
        = 0 := by decide
    simp only [calculate_waste_statistics]
    rw [ht, he, if_neg (lt_irrefl 0)]
    simpa using round2_whole 0

/-- Witness for C8: the spec's ten-item, three-expired example. -/
theorem claim8_witness :
    (calculate_waste_statistics 0 wasteStore).waste_rate_percentage = 30 :=
  (claim8_waste_statistics 0 wasteStore).2.2.2.2.1

/-- C9: the rule-based recipe fallback is a total function of the
ingredient list alone — repeated invocations agree, the template comes
from the fixed three-template set and is selected deterministically by
the protein/vegetable/length heuristics, and the ingredient
structuring is one `{item, amount '1', unit 'portion'}` entry per
ingredient; being a total Lean function, it cannot raise on any input
list. -/
theorem claim9_fallback_deterministic (ings : List String) :
    generate_fallback_recipe ings = generate_fallback_recipe ings
    ∧ (generate_fallback_recipe ings).ingredients
        = ings.map (fun ing => { item := ing, amount := "1", unit := "portion" })
    ∧ (generate_fallback_recipe ings).used_ingredients = ings
    ∧ (generate_fallback_recipe ings).template ∈ recipe_templates
    ∧ (has_protein ings = false → has_vegetables ings = true
        → (generate_fallback_recipe ings).template = saladTemplate)
    ∧ ((has_protein ings = true ∨ has_vegetables ings = false) → 4 ≤ ings.length
        → (generate_fallback_recipe ings).template = onePotTemplate)
    ∧ ((has_protein ings = true ∨ has_vegetables ings = false) → ings.length < 4
        → (generate_fallback_recipe ings).template = stirFryTemplate) := by
  refine ⟨rfl, rfl, rfl, ?_, ?_, ?_, ?_⟩
  · simp only [generate_fallback_recipe, recipe_templates]
    split_ifs <;> simp
  · intro hp hv
    simp [generate_fallback_recipe, hp, hv]
  · rintro (hp | hv) h4
    · simp [generate_fallback_recipe, hp, h4]
    · simp [generate_fallback_recipe, hv, h4]
  · rintro (hp | hv) h4
    · simp [generate_fallback_recipe, hp, Nat.not_le.mpr h4]
    · simp [generate_fallback_recipe, hv, Nat.not_le.mpr h4]

/-- Witness for C9: the heuristics at a concrete single-vegetable
list. -/
theorem claim9_witness :
    (generate_fallback_recipe ["carrot"]).used_ingredients = ["carrot"] :=
  (claim9_fallback_deterministic ["carrot"]).2.2.1

/-- C10 counterexample: with eleven past-due fresh items and the
default `max_items` of 10, the pass truncates the sorted candidate
list and the latest-expiring past-due item (id 1) is absent from
`get_items_for_recipe`'s output, so the claim's unconditional
inclusion fails. -/
theorem claim10_counterexample :
    (mkItem 1 "i1" "c" (some (-1)) "fresh") ∈ overdueStore
    ∧ (mkItem 1 "i1" "c" (some (-1)) "fresh").status = "fresh"
    ∧ daysUntilExpiry 0 (-1) < 0
    ∧ ∀ x ∈ get_items_for_recipe 0 none overdueStore, x.id ≠ 1 := by
  refine ⟨by decide, rfl, by decide, by decide⟩

/-- C10 amended: the candidate query has no lower date bound — every
fresh item whose expiry lies in the past (hence on or before the
three-day look-ahead date) is selected by `get_expiring_items` with a
negative computed days-remaining, and it appears in
`get_items_for_recipe`'s output, annotated negatively, whenever it
falls within the first `max_items` sorted candidates. -/
theorem claim10_no_lower_bound (now : Int) (store : List FoodItem) (it : FoodItem)
    (e : Int) (hmem : it ∈ store) (hfresh : it.status = "fresh")
    (hexp : it.expiry_date = some e) (hpast : e * 86400 < now) :
    it ∈ get_expiring_items now 3 store
    ∧ daysUntilExpiry now e < 0
    ∧ (∀ m : Option Nat,
        it ∈ (get_expiring_items now 3 store).take (m.getD MAX_INGREDIENTS_FOR_RECIPE)
        → recipeItemOf now it ∈ get_items_for_recipe now m store
          ∧ (recipeItemOf now it).days_remaining < 0) := by
  have hday : daysUntilExpiry now e < 0 := daysUntilExpiry_neg_iff.mpr hpast
  have hwin : e ≤ dayOf (now + 3 * 86400) := le_dayOf_mul (by omega)
  refine ⟨mem_get_expiring_items.mpr ⟨hmem, e, hexp, hwin, hfresh⟩, hday, ?_⟩
  intro m hm
  constructor
  · simp only [get_items_for_recipe]
    exact List.mem_map_of_mem _ hm
  · show daysUntilExpiry now (it.expiry_date.getD 0) < 0
    rw [hexp]
    exact hday

/-- Witness for C10's amended statement: a single past-due fresh item
is selected and annotated with a negative days-remaining. -/
theorem claim10_witness :
    (mkItem 1 "old" "c" (some (-1)) "fresh")
        ∈ [mkItem 1 "old" "c" (some (-1)) "fresh"]
    ∧ (mkItem 1 "old" "c" (some (-1)) "fresh").status = "fresh"
    ∧ (mkItem 1 "old" "c" (some (-1)) "fresh").expiry_date = some (-1)
    ∧ ((-1 : Int) * 86400 < 0)
    ∧ (mkItem 1 "old" "c" (some (-1)) "fresh")
        ∈ get_expiring_items 0 3 [mkItem 1 "old" "c" (some (-1)) "fresh"] :=
  ⟨by decide, rfl, rfl, by decide,
    (claim10_no_lower_bound 0 [mkItem 1 "old" "c" (some (-1)) "fresh"]
      (mkItem 1 "old" "c" (some (-1)) "fresh") (-1)
      (by decide) rfl rfl (by decide)).1⟩
